import Mathlib

/-! Sidecar start-up (`cmd/sidecar/sidecar.go`).

A shallow embedding of `main` of the sidecar.  `main` is straight-line start-up
code: it reads four flags, calls a handful of constructors of other packages,
and either ends in `log.Fatal`/`log.Fatalf` or in `grpcServer.Serve(lis)`.

* The parsed flags are the record `Flags` (`flag.Parse` itself is not modelled).
* Every call into another package whose result `main` branches on is answered
  by the record `World` (one field per call site).
* A run is the list of calls `main` made, in program order (`Run.trace`),
  together with the way it ended (`Run.exit`).  Log lines are not recorded.

Go strings are taken as Lean strings; the only string operations of `main`
are the comparison with `""` and `strings.HasPrefix` / `strings.TrimPrefix`
with the ASCII literal `"unix://"`.

The second part models the byte-stream relay of the cache proxy (package
`cache_proxy`, which `main` constructs at line 87 and whose code is not among
the sources) from the written specification.  The cache backend is a remote
service: it is a parameter of the relay, given by what it answers.
-/

namespace Sidecar

/-! ## Data model -/

/-- The flags of `sidecar.go`, lines 29-35. -/
structure Flags where
  serverType : String
  listenAddr : String
  besBackend : String
  remoteCache : String
  deriving DecidableEq

/-- The default flag values, lines 30-34. -/
def defaultFlags : Flags :=
  { serverType := "sidecar"
    listenAddr := "localhost:1991"
    besBackend := "grpcs://cloud.buildbuddy.io:443"
    remoteCache := "grpcs://cloud.buildbuddy.io:443" }

/-- A `net.Listener`, named by the arguments `net.Listen` was given. -/
structure Listener where
  network : String
  address : String
  deriving DecidableEq

/-- A `*grpc.ClientConn`, named by the target it was dialed for. -/
structure ClientConn where
  target : String
  deriving DecidableEq

/-- The value `build_event_proxy.NewBuildEventProxyClient(target)` returns.  The
constructor has a single result (no `error`), so whether the client holds a
live connection to `target` is a property of the value that `main` cannot
observe; it is recorded in `connected`. -/
structure BuildEventProxyClient where
  target : String
  connected : Bool
  deriving DecidableEq

/-- The value `cache_proxy.NewCacheProxy(conn)` returns. -/
structure CacheProxy where
  conn : ClientConn
  deriving DecidableEq

/-- The gRPC services `main` registers on `grpcServer`. -/
inductive Service where
  | ServerReflection
  | PublishBuildEvent
  | ByteStream
  | ActionCache
  | ContentAddressableStorage
  | Capabilities
  deriving DecidableEq

/-- The object a service is registered with. -/
inductive Handler where
  | reflection
  | buildEventServer (clients : List BuildEventProxyClient)
  | cacheProxy (p : CacheProxy)
  deriving DecidableEq

/-- The six `log.Fatal`/`log.Fatalf` sites of `main` (lines 41, 56, 77, 85, 89, 100). -/
inductive Fatal where
  | configurator
  | listen
  | buildEventProtocolServer
  | dialRemoteCache
  | cacheProxy
  | noServices
  deriving DecidableEq

/-- One call made by `main`, with its arguments and, where `main` tests it,
whether it succeeded. -/
inductive Event where
  | newConfigurator (ok : Bool)
  | newHealthChecker (serverType : String)
  | newRealEnv
  | setAuthenticator
  | setBuildEventHandler
  | listen (network address : String) (ok : Bool)
  | newServer
  | register (s : Service) (h : Handler)
  | registerShutdownFunction
  | newBuildEventProxyClient (target : String)
  | setBuildEventProxyClients (cs : List BuildEventProxyClient)
  | newBuildEventProtocolServer (ok : Bool)
  | dialTarget (target : String) (ok : Bool)
  | newCacheProxy (conn : ClientConn) (ok : Bool)
  | serve (lis : Listener)
  | fatal (f : Fatal)
  deriving DecidableEq

/-- How `main` ends: in one of the fatal sites, or in `grpcServer.Serve(lis)`. -/
inductive Exit where
  | fatal (f : Fatal)
  | served (lis : Listener)
  deriving DecidableEq

/-- A run of `main`. -/
structure Run where
  trace : List Event
  exit : Exit
  deriving DecidableEq

/-- The answers of the other packages to the calls of `main`. -/
structure World where
  /-- Line 39: `config.NewConfigurator("")` returned a nil error. -/
  newConfigurator : Bool
  /-- Lines 51 and 53: `net.Listen(network, address)` returned a nil error. -/
  listen : String → String → Bool
  /-- Line 70: the client returned for a target holds a live connection. -/
  besConnected : String → Bool
  /-- Line 75: `NewBuildEventProtocolServer(env)` returned a nil error; `env`
  is seen through the proxy clients installed in it. -/
  newBuildEventProtocolServer : List BuildEventProxyClient → Bool
  /-- Line 83: `grpc_client.DialTarget(target)` returned a nil error. -/
  dialTarget : String → Bool
  /-- Line 87: `cache_proxy.NewCacheProxy(conn)` returned a nil error. -/
  newCacheProxy : ClientConn → Bool

/-! ## `strings.HasPrefix`, `strings.TrimPrefix` -/

/-- Go `strings.HasPrefix(s, p)`: `len(s) >= len(p) && s[0:len(p)] == p`. -/
def HasPrefix (s p : String) : Bool :=
  decide (p.data.length ≤ s.data.length) && decide (s.data.take p.data.length = p.data)

/-- Go `strings.TrimPrefix(s, p)`: `s[len(p):]` when `HasPrefix(s, p)`, else `s`. -/
def TrimPrefix (s p : String) : String :=
  if HasPrefix s p then ⟨s.data.drop p.data.length⟩ else s

/-! ## `main` -/

/-- Lines 48-54: the arguments of the one `net.Listen` call. -/
def listenArgs (listenAddr : String) : String × String :=
  if HasPrefix listenAddr "unix://" then
    let sockPath := TrimPrefix listenAddr "unix://"
    ("unix", sockPath)
  else
    ("tcp", listenAddr)

/-- A `log.Fatal`/`log.Fatalf`: the process exits, nothing else runs. -/
def fatalExit (t : List Event) (f : Fatal) : Run :=
  { trace := t ++ [Event.fatal f], exit := Exit.fatal f }

/-- Line 70: `build_event_proxy.NewBuildEventProxyClient(target)`. -/
def NewBuildEventProxyClient (w : World) (target : String) : BuildEventProxyClient :=
  { target := target, connected := w.besConnected target }

/-- Lines 68-80: the build-event block.  Returns the extended trace, or the
run that ended in the fatal site of line 77. -/
def besBlock (w : World) (fl : Flags) (t : List Event) : Except Run (List Event) :=
  if fl.besBackend ≠ "" then
    let buildEventProxyClients : List BuildEventProxyClient := []
    let buildEventProxyClients :=
      buildEventProxyClients ++ [NewBuildEventProxyClient w fl.besBackend]
    let t := t ++ [Event.newBuildEventProxyClient fl.besBackend,
                   Event.setBuildEventProxyClients buildEventProxyClients]
    let ok := w.newBuildEventProtocolServer buildEventProxyClients
    let t := t ++ [Event.newBuildEventProtocolServer ok]
    if ok = false then
      Except.error (fatalExit t Fatal.buildEventProtocolServer)
    else
      Except.ok (t ++ [Event.register Service.PublishBuildEvent
                        (Handler.buildEventServer buildEventProxyClients)])
  else
    Except.ok t

/-- Lines 82-95: the cache block.  Returns the extended trace, or the run that
ended in the fatal site of line 85 or of line 89. -/
def cacheBlock (w : World) (fl : Flags) (t : List Event) : Except Run (List Event) :=
  if fl.remoteCache ≠ "" then
    let dialed := w.dialTarget fl.remoteCache
    let t := t ++ [Event.dialTarget fl.remoteCache dialed]
    if dialed = false then
      Except.error (fatalExit t Fatal.dialRemoteCache)
    else
      let conn : ClientConn := { target := fl.remoteCache }
      let built := w.newCacheProxy conn
      let t := t ++ [Event.newCacheProxy conn built]
      if built = false then
        Except.error (fatalExit t Fatal.cacheProxy)
      else
        let cacheProxy : CacheProxy := { conn := conn }
        Except.ok (t ++ [Event.register Service.ByteStream (Handler.cacheProxy cacheProxy),
                         Event.register Service.ActionCache (Handler.cacheProxy cacheProxy),
                         Event.register Service.ContentAddressableStorage
                           (Handler.cacheProxy cacheProxy),
                         Event.register Service.Capabilities (Handler.cacheProxy cacheProxy)])
  else
    Except.ok t

/-- The function `main` of `sidecar.go`, lines 37-102. -/
def main (w : World) (fl : Flags) : Run :=
  -- lines 39-42
  let t : List Event := [Event.newConfigurator w.newConfigurator]
  if w.newConfigurator = false then
    fatalExit t Fatal.configurator
  else
    -- lines 43-46
    let t := t ++ [Event.newHealthChecker fl.serverType, Event.newRealEnv,
                   Event.setAuthenticator, Event.setBuildEventHandler]
    -- lines 48-57
    let args := listenArgs fl.listenAddr
    let bound := w.listen args.1 args.2
    let t := t ++ [Event.listen args.1 args.2 bound]
    if bound = false then
      fatalExit t Fatal.listen
    else
      let lis : Listener := { network := args.1, address := args.2 }
      -- lines 59-66
      let t := t ++ [Event.newServer,
                     Event.register Service.ServerReflection Handler.reflection,
                     Event.registerShutdownFunction]
      -- lines 68-80
      match besBlock w fl t with
      | Except.error r => r
      | Except.ok t =>
        -- lines 82-95
        match cacheBlock w fl t with
        | Except.error r => r
        | Except.ok t =>
          -- lines 97-101
          if fl.besBackend ≠ "" ∨ fl.remoteCache ≠ "" then
            { trace := t ++ [Event.serve lis], exit := Exit.served lis }
          else
            fatalExit t Fatal.noServices

/-! ## Observations on a run -/

/-- The `(network, address)` arguments of a `net.Listen` call. -/
def Event.asListen : Event → Option (String × String)
  | Event.listen n a _ => some (n, a)
  | _ => none

/-- The target of a `grpc_client.DialTarget` call. -/
def Event.asDial : Event → Option String
  | Event.dialTarget target _ => some target
  | _ => none

/-- The target of a `NewBuildEventProxyClient` call. -/
def Event.asBesClient : Event → Option String
  | Event.newBuildEventProxyClient target => some target
  | _ => none

/-- The connection handed to a `cache_proxy.NewCacheProxy` call. -/
def Event.asCacheProxy : Event → Option ClientConn
  | Event.newCacheProxy c _ => some c
  | _ => none

/-- The client list handed to an `env.SetBuildEventProxyClients` call. -/
def Event.asInstall : Event → Option (List BuildEventProxyClient)
  | Event.setBuildEventProxyClients cs => some cs
  | _ => none

/-- The service and handler of a registration on `grpcServer`. -/
def Event.asRegister : Event → Option (Service × Handler)
  | Event.register s h => some (s, h)
  | _ => none

/-- The listener of a `grpcServer.Serve` call. -/
def Event.asServe : Event → Option Listener
  | Event.serve l => some l
  | _ => none

/-- The `(network, address)` arguments of the `net.Listen` calls, in order. -/
def listenCalls (t : List Event) : List (String × String) := t.filterMap Event.asListen

/-- The targets of the `grpc_client.DialTarget` calls, in order. -/
def dialCalls (t : List Event) : List String := t.filterMap Event.asDial

/-- The targets of the `NewBuildEventProxyClient` calls, in order. -/
def besClientCalls (t : List Event) : List String := t.filterMap Event.asBesClient

/-- The connections handed to `cache_proxy.NewCacheProxy`, in order. -/
def cacheProxyCalls (t : List Event) : List ClientConn := t.filterMap Event.asCacheProxy

/-- The client lists handed to `env.SetBuildEventProxyClients`, in order. -/
def installedClients (t : List Event) : List (List BuildEventProxyClient) :=
  t.filterMap Event.asInstall

/-- The services registered on `grpcServer` with their handlers, in order. -/
def registrations (t : List Event) : List (Service × Handler) := t.filterMap Event.asRegister

/-- The listeners `grpcServer.Serve` was called on, in order. -/
def serveCalls (t : List Event) : List Listener := t.filterMap Event.asServe

/-- Whether `grpc.NewServer` was called. -/
def serverCreated (t : List Event) : Bool := decide (Event.newServer ∈ t)

/-- The run ended in one of the fatal sites. -/
def Exit.isFatal : Exit → Bool
  | Exit.fatal _ => true
  | Exit.served _ => false

/-- The five proxy services (everything `main` registers except reflection). -/
def Service.isProxy : Service → Bool
  | Service.ServerReflection => false
  | _ => true

/-- The (service, handler) pairs of the proxy services registered in a run. -/
def proxyRegistrations (t : List Event) : List (Service × Handler) :=
  (registrations t).filter (fun p => p.1.isProxy)

/-- The listener `main` asks for: `net.Listen` applied to `listenArgs`. -/
def listenerOf (fl : Flags) : Listener :=
  { network := (listenArgs fl.listenAddr).1, address := (listenArgs fl.listenAddr).2 }

/-- Every call of `main` that can fail succeeds and at least one backend is
configured: the calls are those reached in program order, so the build-event
server only matters when `bes_backend` is set, and the dial and the cache
proxy only when `remote_cache` is set. -/
def StartupOk (w : World) (fl : Flags) : Prop :=
  (fl.besBackend ≠ "" ∨ fl.remoteCache ≠ "") ∧
  w.newConfigurator = true ∧
  w.listen (listenArgs fl.listenAddr).1 (listenArgs fl.listenAddr).2 = true ∧
  (fl.besBackend ≠ "" →
    w.newBuildEventProtocolServer [NewBuildEventProxyClient w fl.besBackend] = true) ∧
  (fl.remoteCache ≠ "" →
    w.dialTarget fl.remoteCache = true ∧ w.newCacheProxy { target := fl.remoteCache } = true)

/-- A world in which every call of `main` succeeds. -/
def okWorld : World :=
  { newConfigurator := true
    listen := fun _ _ => true
    besConnected := fun _ => true
    newBuildEventProtocolServer := fun _ => true
    dialTarget := fun _ => true
    newCacheProxy := fun _ => true }

/-- As `okWorld`, but `config.NewConfigurator` fails. -/
def noConfiguratorWorld : World := { okWorld with newConfigurator := false }

/-- As `okWorld`, but every `net.Listen` fails. -/
def noListenWorld : World := { okWorld with listen := fun _ _ => false }

/-- As `okWorld`, but `NewBuildEventProtocolServer` fails. -/
def noBesServerWorld : World := { okWorld with newBuildEventProtocolServer := fun _ => false }

/-- As `okWorld`, but every `grpc_client.DialTarget` fails. -/
def noDialWorld : World := { okWorld with dialTarget := fun _ => false }

/-- As `okWorld`, but `cache_proxy.NewCacheProxy` fails. -/
def noCacheProxyWorld : World := { okWorld with newCacheProxy := fun _ => false }

/-- As `okWorld`, but no build-event proxy client reaches its target. -/
def besUnreachableWorld : World := { okWorld with besConnected := fun _ => false }

/-- Both backend addresses empty. -/
def noBackendFlags : Flags := { defaultFlags with besBackend := "", remoteCache := "" }

/-- Only the build-event backend configured. -/
def besOnlyFlags : Flags := { defaultFlags with remoteCache := "" }

/-- Only the cache backend configured. -/
def cacheOnlyFlags : Flags := { defaultFlags with besBackend := "" }

/-- A Unix-socket listen address whose path itself starts with `unix://`. -/
def unixFlags : Flags := { defaultFlags with listenAddr := "unix://unix://x" }

end Sidecar

/-! # The byte-stream relay of the cache proxy -/

namespace ByteStream

/-- A byte. -/
abbrev Byte := Fin 256

/-- Modelled from the spec: the states of one proxied cache call (section 4.5;
the cache proxy itself, package `cache_proxy`, is not among the sources).
`OPEN` (legs being established), `RELAYING` (chunks flowing), `CLOSING` (one
side signalled end of stream, draining the other), `DONE` (both sides closed),
`FAILED` (either leg errored, or the sidecar rejected a message). -/
inductive Phase where
  | OPEN
  | RELAYING
  | CLOSING
  | DONE
  | FAILED
  deriving DecidableEq

/-- Modelled from the spec: why a proxied cache call failed (sections 4.5
and 7): a message over the configured maximum size (the sidecar's own
"resource exhausted"), or an error of one of the two legs. -/
inductive Failure where
  | sizeLimit
  | sendingLeg
  | receivingLeg
  deriving DecidableEq

/-- Modelled from the spec: a proxied stream session of the cache proxy
(sections 3 and 4.5), for messages of type `μ`, seen in one direction.  The
sending leg is `pending` (the messages it has still to offer, in order) and
`sourceErrs` (it ends in an error rather than in end of stream).  The
receiving leg is `delivered` (the messages written to it, in order) and
`sinkRoom` (`some k`: it takes `k` more operations and errors on the next;
`none`: it never errors).  The session holds no data beyond the one message in
flight (`inFlight`). -/
structure Session (μ : Type) where
  phase : Phase
  pending : List μ
  sourceErrs : Bool
  sinkRoom : Option Nat
  inFlight : Option μ
  delivered : List μ
  failure : Option Failure
  deriving DecidableEq

/-- Modelled from the spec: a new session of the cache proxy, legs not yet
established, nothing accepted and nothing delivered. -/
def Session.start {μ : Type} (msgs : List μ) (sourceErrs : Bool) (sinkRoom : Option Nat) :
    Session μ :=
  { phase := Phase.OPEN, pending := msgs, sourceErrs := sourceErrs, sinkRoom := sinkRoom,
    inFlight := none, delivered := [], failure := none }

/-- Modelled from the spec: one move of the cache proxy relay (sections 4.5
and 7).  Each message read from the sending leg is written to the receiving
leg before the next is accepted; a message over `maxSize`, the configured
maximum message size (the value `main` hands to `grpc.MaxRecvMsgSize` at
line 62), is rejected and not forwarded; an error of either leg fails the
call; no call re-enters `RELAYING` after `CLOSING`.  In a stream the unit is
the message: the chunks relayed before a rejected one have already gone to the
receiving leg. -/
def Session.step {μ : Type} (maxSize : Nat) (size : μ → Nat) (s : Session μ) : Session μ :=
  match s.phase with
  | Phase.OPEN => { s with phase := Phase.RELAYING }
  | Phase.RELAYING =>
    match s.inFlight with
    | some m =>
      match s.sinkRoom with
      | some 0 =>
        { s with phase := Phase.FAILED, inFlight := none, failure := some Failure.receivingLeg }
      | some (k + 1) =>
        { s with inFlight := none, delivered := s.delivered ++ [m], sinkRoom := some k }
      | none => { s with inFlight := none, delivered := s.delivered ++ [m] }
    | none =>
      match s.pending with
      | m :: rest =>
        if size m ≤ maxSize then
          { s with pending := rest, inFlight := some m }
        else
          { s with phase := Phase.FAILED, failure := some Failure.sizeLimit }
      | [] =>
        if s.sourceErrs then
          { s with phase := Phase.FAILED, failure := some Failure.sendingLeg }
        else
          { s with phase := Phase.CLOSING }
  | Phase.CLOSING =>
    match s.sinkRoom with
    | some 0 => { s with phase := Phase.FAILED, failure := some Failure.receivingLeg }
    | _ => { s with phase := Phase.DONE }
  | Phase.DONE => s
  | Phase.FAILED => s

/-- Modelled from the spec: `n` moves of the cache proxy relay. -/
def Session.run {μ : Type} (maxSize : Nat) (size : μ → Nat) : Nat → Session μ → Session μ
  | 0, s => s
  | n + 1, s => Session.run maxSize size n (s.step maxSize size)

/-- Modelled from the spec: the cache proxy relaying a whole stream: the
session is run for as many moves as the stream can need (two per message, and
one each to open, to close and to finish). -/
def relay {μ : Type} (maxSize : Nat) (size : μ → Nat) (msgs : List μ) (sourceErrs : Bool)
    (sinkRoom : Option Nat) : Session μ :=
  Session.run maxSize size (2 * msgs.length + 3) (Session.start msgs sourceErrs sinkRoom)

/-- A byte-stream `WriteRequest`. -/
structure WriteRequest where
  resourceName : String
  writeOffset : Nat
  data : List Byte
  finishWrite : Bool
  deriving DecidableEq

/-- The payload size of a `WriteRequest`. -/
def WriteRequest.size (r : WriteRequest) : Nat := r.data.length

/-- The bytes carried by a stream of `WriteRequest`s. -/
def payload (reqs : List WriteRequest) : List Byte := (reqs.map WriteRequest.data).flatten

/-- The cache backend, a remote service outside this repository, given by
what it answers: `write` is its state and the committed size it reports after
a write call whose request stream completed; `cancel` its state after a write
call that was cancelled, having received the given requests; `read` the
chunks it serves for a resource, and whether the stream then ends in an
error. -/
structure Backend (σ : Type) where
  write : σ → List WriteRequest → σ × Nat
  cancel : σ → List WriteRequest → σ
  read : σ → String → List (List Byte) × Bool

/-- The outcome of a call through the sidecar, as the client sees it. -/
inductive Outcome (α : Type) where
  | ok (a : α)
  | failed (f : Failure)
  deriving DecidableEq

/-- Modelled from the spec: `Write` through the sidecar (section 4.5): the
client's requests go through the cache proxy relay to the backend leg.  When
the session ends in `DONE` the backend's answer goes back unchanged;
otherwise the backend leg is cancelled and the client gets the failure.
`clientErrs` and `backendRoom` say when the two legs error. -/
def sidecarWrite {σ : Type} (maxSize : Nat) (bk : Backend σ) (st : σ)
    (reqs : List WriteRequest) (clientErrs : Bool) (backendRoom : Option Nat) :
    σ × Outcome Nat :=
  let s := relay maxSize WriteRequest.size reqs clientErrs backendRoom
  if s.phase = Phase.DONE then
    ((bk.write st s.delivered).1, Outcome.ok (bk.write st s.delivered).2)
  else
    (bk.cancel st s.delivered, Outcome.failed (s.failure.getD Failure.sendingLeg))

/-- Modelled from the spec: `Read` through the sidecar (section 4.5): the
backend's chunks go through the cache proxy relay to the client leg.  The
client gets the chunks delivered before the call ended, and the failure if it
did not end in `DONE`.  `clientRoom` says when the client leg errors. -/
def sidecarRead {σ : Type} (maxSize : Nat) (bk : Backend σ) (st : σ) (name : String)
    (clientRoom : Option Nat) : List (List Byte) × Outcome Unit :=
  let s := relay maxSize List.length (bk.read st name).1 (bk.read st name).2 clientRoom
  if s.phase = Phase.DONE then
    (s.delivered, Outcome.ok ())
  else
    (s.delivered, Outcome.failed (s.failure.getD Failure.sendingLeg))

/-- Cuts `l` into pieces of `size + 1` elements (the last may be shorter);
`fuel` bounds the number of pieces. -/
def splitEvery {α : Type} (size : Nat) : Nat → List α → List (List α)
  | 0, _ => []
  | _ + 1, [] => []
  | fuel + 1, a :: l => (a :: l).take (size + 1) :: splitEvery size fuel ((a :: l).drop (size + 1))

/-- An example backend: an in-memory store, by resource name.  A completed
write stores the bytes of the stream under the resource name of its first
request, cut short to `quota` bytes when a quota is set, and reports the number
of bytes committed; a cancelled write stores nothing; a read serves the stored
bytes in chunks of `chunk + 1` bytes, and errors for a name it does not
hold. -/
def memoryBackend (quota : Option Nat) (chunk : Nat) : Backend (String → Option (List Byte)) :=
  { write := fun st reqs =>
      match reqs with
      | [] => (st, 0)
      | r :: _ =>
        let bytes := match quota with
          | some q => (payload reqs).take q
          | none => payload reqs
        (fun name => if name = r.resourceName then some bytes else st name, bytes.length)
    cancel := fun st _ => st
    read := fun st name =>
      match st name with
      | some bytes => (splitEvery chunk bytes.length bytes, false)
      | none => ([], true) }

/-- The empty in-memory store. -/
def emptyStore : String → Option (List Byte) := fun _ => none

/-- The requests of a client that writes the given chunks to `name`:
consecutive offsets, `finish_write` on the last. -/
def writeRequests (name : String) : Nat → List (List Byte) → List WriteRequest
  | _, [] => []
  | offset, [c] =>
    [{ resourceName := name, writeOffset := offset, data := c, finishWrite := true }]
  | offset, c :: c2 :: cs =>
    { resourceName := name, writeOffset := offset, data := c, finishWrite := false } ::
      writeRequests name (offset + c.length) (c2 :: cs)

/-- A session that has ended: `DONE` without a failure, or `FAILED` with
one. -/
def Session.Ended {μ : Type} (s : Session μ) : Prop :=
  (s.phase = Phase.DONE ∧ s.failure = none) ∨ (s.phase = Phase.FAILED ∧ s.failure ≠ none)

/-- What a session has accepted so far is what the sending leg offered, in
order, and nothing accepted is over `maxSize`. -/
def Session.Inv {μ : Type} (maxSize : Nat) (size : μ → Nat) (msgs : List μ) (s : Session μ) :
    Prop :=
  s.delivered <+: msgs ∧ (∀ m ∈ s.delivered, size m ≤ maxSize) ∧
  (s.phase ≠ Phase.FAILED →
    msgs = s.delivered ++ s.inFlight.toList ++ s.pending ∧
    ∀ m ∈ s.inFlight.toList, size m ≤ maxSize)

end ByteStream

/-! # Theorems about `main` -/
namespace Sidecar

/-! ## Strings -/

theorem HasPrefix_append (p r : String) : HasPrefix (p ++ r) p = true := by
  simp [HasPrefix, String.data_append]

theorem HasPrefix_iff (s p : String) : HasPrefix s p = true ↔ ∃ r, s = p ++ r := by
  constructor
  · intro h
    simp only [HasPrefix, Bool.and_eq_true, decide_eq_true_eq] at h
    refine ⟨⟨s.data.drop p.data.length⟩, ?_⟩
    apply String.ext
    rw [String.data_append]
    conv_lhs => rw [← List.take_append_drop p.data.length s.data]
    rw [h.2]
  · rintro ⟨r, rfl⟩
    exact HasPrefix_append p r

theorem TrimPrefix_append (p r : String) : TrimPrefix (p ++ r) p = r := by
  simp [TrimPrefix, HasPrefix_append, String.data_append]

theorem listenArgs_unix (path : String) : listenArgs ("unix://" ++ path) = ("unix", path) := by
  simp [listenArgs, HasPrefix_append, TrimPrefix_append]

theorem listenArgs_tcp (a : String) (h : ¬ ∃ path, a = "unix://" ++ path) :
    listenArgs a = ("tcp", a) := by
  have : HasPrefix a "unix://" = false := by
    rw [← Bool.not_eq_true, HasPrefix_iff]; exact h
  simp [listenArgs, this]

/-! ## The calls of a run, by kind -/

theorem main_listenCalls (w : World) (fl : Flags) :
    listenCalls (main w fl).trace =
      if w.newConfigurator = true then [listenArgs fl.listenAddr] else [] := by
  by_cases hc : w.newConfigurator = true <;>
  by_cases hl : w.listen (listenArgs fl.listenAddr).1 (listenArgs fl.listenAddr).2 = true <;>
  by_cases hb : fl.besBackend = "" <;>
  by_cases hr : fl.remoteCache = "" <;>
  by_cases hs : w.newBuildEventProtocolServer [NewBuildEventProxyClient w fl.besBackend] = true <;>
  by_cases hd : w.dialTarget fl.remoteCache = true <;>
  by_cases hp : w.newCacheProxy { target := fl.remoteCache } = true <;>
  simp [main, besBlock, cacheBlock, fatalExit, listenCalls, Event.asListen,
    hc, hl, hb, hr, hs, hd, hp]

theorem main_serveCalls (w : World) (fl : Flags) :
    ((main w fl).exit.isFatal = true → serveCalls (main w fl).trace = []) ∧
    (∀ lis, (main w fl).exit = Exit.served lis → serveCalls (main w fl).trace = [lis]) := by
  by_cases hc : w.newConfigurator = true <;>
  by_cases hl : w.listen (listenArgs fl.listenAddr).1 (listenArgs fl.listenAddr).2 = true <;>
  by_cases hb : fl.besBackend = "" <;>
  by_cases hr : fl.remoteCache = "" <;>
  by_cases hs : w.newBuildEventProtocolServer [NewBuildEventProxyClient w fl.besBackend] = true <;>
  by_cases hd : w.dialTarget fl.remoteCache = true <;>
  by_cases hp : w.newCacheProxy { target := fl.remoteCache } = true <;>
  simp [main, besBlock, cacheBlock, fatalExit, serveCalls, Event.asServe, Exit.isFatal,
    hc, hl, hb, hr, hs, hd, hp]

theorem main_exit (w : World) (fl : Flags) :
    (StartupOk w fl → (main w fl).exit = Exit.served (listenerOf fl)) ∧
    (¬ StartupOk w fl → (main w fl).exit.isFatal = true) := by
  by_cases hc : w.newConfigurator = true <;>
  by_cases hl : w.listen (listenArgs fl.listenAddr).1 (listenArgs fl.listenAddr).2 = true <;>
  by_cases hb : fl.besBackend = "" <;>
  by_cases hr : fl.remoteCache = "" <;>
  by_cases hs : w.newBuildEventProtocolServer [NewBuildEventProxyClient w fl.besBackend] = true <;>
  by_cases hd : w.dialTarget fl.remoteCache = true <;>
  by_cases hp : w.newCacheProxy { target := fl.remoteCache } = true <;>
  simp [main, besBlock, cacheBlock, fatalExit, StartupOk, listenerOf, Exit.isFatal,
    hc, hl, hb, hr, hs, hd, hp]

theorem main_fatal_sites (w : World) (fl : Flags) :
    ((main w fl).exit = Exit.fatal Fatal.configurator ↔ w.newConfigurator = false) ∧
    ((main w fl).exit = Exit.fatal Fatal.listen ↔
      w.newConfigurator = true ∧
      w.listen (listenArgs fl.listenAddr).1 (listenArgs fl.listenAddr).2 = false) ∧
    ((main w fl).exit = Exit.fatal Fatal.buildEventProtocolServer ↔
      w.newConfigurator = true ∧
      w.listen (listenArgs fl.listenAddr).1 (listenArgs fl.listenAddr).2 = true ∧
      fl.besBackend ≠ "" ∧
      w.newBuildEventProtocolServer [NewBuildEventProxyClient w fl.besBackend] = false) ∧
    ((main w fl).exit = Exit.fatal Fatal.dialRemoteCache ↔
      w.newConfigurator = true ∧
      w.listen (listenArgs fl.listenAddr).1 (listenArgs fl.listenAddr).2 = true ∧
      (fl.besBackend ≠ "" →
        w.newBuildEventProtocolServer [NewBuildEventProxyClient w fl.besBackend] = true) ∧
      fl.remoteCache ≠ "" ∧ w.dialTarget fl.remoteCache = false) ∧
    ((main w fl).exit = Exit.fatal Fatal.cacheProxy ↔
      w.newConfigurator = true ∧
      w.listen (listenArgs fl.listenAddr).1 (listenArgs fl.listenAddr).2 = true ∧
      (fl.besBackend ≠ "" →
        w.newBuildEventProtocolServer [NewBuildEventProxyClient w fl.besBackend] = true) ∧
      fl.remoteCache ≠ "" ∧ w.dialTarget fl.remoteCache = true ∧
      w.newCacheProxy { target := fl.remoteCache } = false) ∧
    ((main w fl).exit = Exit.fatal Fatal.noServices ↔
      w.newConfigurator = true ∧
      w.listen (listenArgs fl.listenAddr).1 (listenArgs fl.listenAddr).2 = true ∧
      fl.besBackend = "" ∧ fl.remoteCache = "") := by
  by_cases hc : w.newConfigurator = true <;>
  by_cases hl : w.listen (listenArgs fl.listenAddr).1 (listenArgs fl.listenAddr).2 = true <;>
  by_cases hb : fl.besBackend = "" <;>
  by_cases hr : fl.remoteCache = "" <;>
  by_cases hs : w.newBuildEventProtocolServer [NewBuildEventProxyClient w fl.besBackend] = true <;>
  by_cases hd : w.dialTarget fl.remoteCache = true <;>
  by_cases hp : w.newCacheProxy { target := fl.remoteCache } = true <;>
  simp [main, besBlock, cacheBlock, fatalExit, hc, hl, hb, hr, hs, hd, hp]

theorem main_dialCalls (w : World) (fl : Flags) :
    dialCalls (main w fl).trace =
      if w.newConfigurator = true ∧
          w.listen (listenArgs fl.listenAddr).1 (listenArgs fl.listenAddr).2 = true ∧
          (fl.besBackend ≠ "" →
            w.newBuildEventProtocolServer [NewBuildEventProxyClient w fl.besBackend] = true) ∧
          fl.remoteCache ≠ "" then [fl.remoteCache] else [] := by
  by_cases hc : w.newConfigurator = true <;>
  by_cases hl : w.listen (listenArgs fl.listenAddr).1 (listenArgs fl.listenAddr).2 = true <;>
  by_cases hb : fl.besBackend = "" <;>
  by_cases hr : fl.remoteCache = "" <;>
  by_cases hs : w.newBuildEventProtocolServer [NewBuildEventProxyClient w fl.besBackend] = true <;>
  by_cases hd : w.dialTarget fl.remoteCache = true <;>
  by_cases hp : w.newCacheProxy { target := fl.remoteCache } = true <;>
  simp [main, besBlock, cacheBlock, fatalExit, dialCalls, Event.asDial,
    hc, hl, hb, hr, hs, hd, hp]

theorem main_cacheProxyCalls (w : World) (fl : Flags) :
    cacheProxyCalls (main w fl).trace =
      if w.newConfigurator = true ∧
          w.listen (listenArgs fl.listenAddr).1 (listenArgs fl.listenAddr).2 = true ∧
          (fl.besBackend ≠ "" →
            w.newBuildEventProtocolServer [NewBuildEventProxyClient w fl.besBackend] = true) ∧
          fl.remoteCache ≠ "" ∧ w.dialTarget fl.remoteCache = true
      then [{ target := fl.remoteCache }] else [] := by
  by_cases hc : w.newConfigurator = true <;>
  by_cases hl : w.listen (listenArgs fl.listenAddr).1 (listenArgs fl.listenAddr).2 = true <;>
  by_cases hb : fl.besBackend = "" <;>
  by_cases hr : fl.remoteCache = "" <;>
  by_cases hs : w.newBuildEventProtocolServer [NewBuildEventProxyClient w fl.besBackend] = true <;>
  by_cases hd : w.dialTarget fl.remoteCache = true <;>
  by_cases hp : w.newCacheProxy { target := fl.remoteCache } = true <;>
  simp [main, besBlock, cacheBlock, fatalExit, cacheProxyCalls, Event.asCacheProxy,
    hc, hl, hb, hr, hs, hd, hp]

theorem main_besClientCalls (w : World) (fl : Flags) :
    besClientCalls (main w fl).trace =
      if w.newConfigurator = true ∧
          w.listen (listenArgs fl.listenAddr).1 (listenArgs fl.listenAddr).2 = true ∧
          fl.besBackend ≠ "" then [fl.besBackend] else [] := by
  by_cases hc : w.newConfigurator = true <;>
  by_cases hl : w.listen (listenArgs fl.listenAddr).1 (listenArgs fl.listenAddr).2 = true <;>
  by_cases hb : fl.besBackend = "" <;>
  by_cases hr : fl.remoteCache = "" <;>
  by_cases hs : w.newBuildEventProtocolServer [NewBuildEventProxyClient w fl.besBackend] = true <;>
  by_cases hd : w.dialTarget fl.remoteCache = true <;>
  by_cases hp : w.newCacheProxy { target := fl.remoteCache } = true <;>
  simp [main, besBlock, cacheBlock, fatalExit, besClientCalls, Event.asBesClient,
    hc, hl, hb, hr, hs, hd, hp]

theorem main_installedClients (w : World) (fl : Flags) :
    installedClients (main w fl).trace =
      if w.newConfigurator = true ∧
          w.listen (listenArgs fl.listenAddr).1 (listenArgs fl.listenAddr).2 = true ∧
          fl.besBackend ≠ "" then [[NewBuildEventProxyClient w fl.besBackend]] else [] := by
  by_cases hc : w.newConfigurator = true <;>
  by_cases hl : w.listen (listenArgs fl.listenAddr).1 (listenArgs fl.listenAddr).2 = true <;>
  by_cases hb : fl.besBackend = "" <;>
  by_cases hr : fl.remoteCache = "" <;>
  by_cases hs : w.newBuildEventProtocolServer [NewBuildEventProxyClient w fl.besBackend] = true <;>
  by_cases hd : w.dialTarget fl.remoteCache = true <;>
  by_cases hp : w.newCacheProxy { target := fl.remoteCache } = true <;>
  simp [main, besBlock, cacheBlock, fatalExit, installedClients, Event.asInstall,
    hc, hl, hb, hr, hs, hd, hp]

theorem main_listen_failed_trace (w : World) (fl : Flags) (n a : String)
    (h : Event.listen n a false ∈ (main w fl).trace) :
    (main w fl).trace =
      [Event.newConfigurator true, Event.newHealthChecker fl.serverType,
       Event.newRealEnv, Event.setAuthenticator, Event.setBuildEventHandler,
       Event.listen n a false, Event.fatal Fatal.listen] ∧
    (main w fl).exit = Exit.fatal Fatal.listen := by
  revert h
  by_cases hc : w.newConfigurator = true <;>
  by_cases hl : w.listen (listenArgs fl.listenAddr).1 (listenArgs fl.listenAddr).2 = true <;>
  by_cases hb : fl.besBackend = "" <;>
  by_cases hr : fl.remoteCache = "" <;>
  by_cases hs : w.newBuildEventProtocolServer [NewBuildEventProxyClient w fl.besBackend] = true <;>
  by_cases hd : w.dialTarget fl.remoteCache = true <;>
  by_cases hp : w.newCacheProxy { target := fl.remoteCache } = true <;>
  simp [main, besBlock, cacheBlock, fatalExit, hc, hl, hb, hr, hs, hd, hp] <;>
  (rintro rfl rfl; exact ⟨rfl, rfl⟩)

theorem main_registrations (w : World) (fl : Flags) (lis : Listener)
    (h : (main w fl).exit = Exit.served lis) :
    registrations (main w fl).trace =
      (Service.ServerReflection, Handler.reflection) ::
      ((if fl.besBackend ≠ "" then
        [(Service.PublishBuildEvent,
          Handler.buildEventServer [NewBuildEventProxyClient w fl.besBackend])]
       else []) ++
      (if fl.remoteCache ≠ "" then
        [(Service.ByteStream, Handler.cacheProxy { conn := { target := fl.remoteCache } }),
         (Service.ActionCache, Handler.cacheProxy { conn := { target := fl.remoteCache } }),
         (Service.ContentAddressableStorage,
           Handler.cacheProxy { conn := { target := fl.remoteCache } }),
         (Service.Capabilities, Handler.cacheProxy { conn := { target := fl.remoteCache } })]
       else [])) := by
  revert h
  by_cases hc : w.newConfigurator = true <;>
  by_cases hl : w.listen (listenArgs fl.listenAddr).1 (listenArgs fl.listenAddr).2 = true <;>
  by_cases hb : fl.besBackend = "" <;>
  by_cases hr : fl.remoteCache = "" <;>
  by_cases hs : w.newBuildEventProtocolServer [NewBuildEventProxyClient w fl.besBackend] = true <;>
  by_cases hd : w.dialTarget fl.remoteCache = true <;>
  by_cases hp : w.newCacheProxy { target := fl.remoteCache } = true <;>
  simp [main, besBlock, cacheBlock, fatalExit, registrations,
    Event.asRegister, hc, hl, hb, hr, hs, hd, hp]

theorem main_no_backend_trace (w : World) (fl : Flags)
    (hb : fl.besBackend = "") (hr : fl.remoteCache = "")
    (hc : w.newConfigurator = true)
    (hl : w.listen (listenArgs fl.listenAddr).1 (listenArgs fl.listenAddr).2 = true) :
    (main w fl).trace =
      [Event.newConfigurator true, Event.newHealthChecker fl.serverType,
       Event.newRealEnv, Event.setAuthenticator, Event.setBuildEventHandler,
       Event.listen (listenArgs fl.listenAddr).1 (listenArgs fl.listenAddr).2 true,
       Event.newServer, Event.register Service.ServerReflection Handler.reflection,
       Event.registerShutdownFunction, Event.fatal Fatal.noServices] := by
  simp [main, besBlock, cacheBlock, fatalExit, hc, hl, hb, hr]

/-! ## The claims about `main` -/

/-- C1, as amended: in every run of `main` in which `config.NewConfigurator`
succeeds, `net.Listen` is called exactly once; for a listen address of the form
`"unix://" ++ path` the call is `net.Listen("unix", path)` (the leading
`unix://` removed once), and for every address not of that form it is
`net.Listen("tcp", a)` with `a` unchanged. -/
theorem main_listen_call (w : World) (fl : Flags) (hc : w.newConfigurator = true) :
    (∀ path : String, fl.listenAddr = "unix://" ++ path →
      listenCalls (main w fl).trace = [("unix", path)]) ∧
    ((¬ ∃ path : String, fl.listenAddr = "unix://" ++ path) →
      listenCalls (main w fl).trace = [("tcp", fl.listenAddr)]) := by
  rw [main_listenCalls, if_pos hc]
  constructor
  · intro path hp
    rw [hp, listenArgs_unix]
  · intro hn
    rw [listenArgs_tcp _ hn]

/-- The amended C1 at the addresses `unix://unix://x`, `unix://`, `UNIX://x`
and `unix:/x`. -/
theorem main_listen_call_witness :
    listenCalls (main okWorld unixFlags).trace = [("unix", "unix://x")] ∧
    listenCalls (main okWorld { defaultFlags with listenAddr := "unix://" }).trace =
      [("unix", "")] ∧
    listenCalls (main okWorld { defaultFlags with listenAddr := "UNIX://x" }).trace =
      [("tcp", "UNIX://x")] ∧
    listenCalls (main okWorld { defaultFlags with listenAddr := "unix:/x" }).trace =
      [("tcp", "unix:/x")] :=
  ⟨(main_listen_call okWorld unixFlags rfl).1 "unix://x" rfl,
   (main_listen_call okWorld { defaultFlags with listenAddr := "unix://" } rfl).1 "" rfl,
   (main_listen_call okWorld { defaultFlags with listenAddr := "UNIX://x" } rfl).2
     (fun h => by have h2 := (HasPrefix_iff _ _).2 h; revert h2; decide),
   (main_listen_call okWorld { defaultFlags with listenAddr := "unix:/x" } rfl).2
     (fun h => by have h2 := (HasPrefix_iff _ _).2 h; revert h2; decide)⟩

/-- C1 as stated fails: with the listen address `unix://unix://x` and a
failing `config.NewConfigurator`, `main` ends at line 41 and `net.Listen` is
not called at all. -/
theorem main_listen_call_counterexample :
    HasPrefix unixFlags.listenAddr "unix://" = true ∧
    listenCalls (main noConfiguratorWorld unixFlags).trace = [] ∧
    (main noConfiguratorWorld unixFlags).trace =
      [Event.newConfigurator false, Event.fatal Fatal.configurator] := by
  decide

/-- C2, as amended: in every run of `main` with `bes_backend` and
`remote_cache` both empty the process ends in a fatal exit and `Serve` is never
called; the test for a missing backend is the last statement of `main`, so
`net.Listen` has been called once before it whenever `config.NewConfigurator`
succeeded, and when that bind succeeded too the run is: listen, create the
server, register reflection and the shutdown function, then the fatal exit
of line 100. -/
theorem main_no_backend (w : World) (fl : Flags)
    (hb : fl.besBackend = "") (hr : fl.remoteCache = "") :
    (main w fl).exit.isFatal = true ∧
    serveCalls (main w fl).trace = [] ∧
    (w.newConfigurator = true →
      listenCalls (main w fl).trace = [listenArgs fl.listenAddr]) ∧
    (w.newConfigurator = true →
      w.listen (listenArgs fl.listenAddr).1 (listenArgs fl.listenAddr).2 = true →
      (main w fl).exit = Exit.fatal Fatal.noServices ∧
      (main w fl).trace =
        [Event.newConfigurator true, Event.newHealthChecker fl.serverType,
         Event.newRealEnv, Event.setAuthenticator, Event.setBuildEventHandler,
         Event.listen (listenArgs fl.listenAddr).1 (listenArgs fl.listenAddr).2 true,
         Event.newServer, Event.register Service.ServerReflection Handler.reflection,
         Event.registerShutdownFunction, Event.fatal Fatal.noServices]) := by
  have hf : (main w fl).exit.isFatal = true :=
    (main_exit w fl).2 (fun h => by
      rcases h.1 with h1 | h1
      · exact h1 hb
      · exact h1 hr)
  refine ⟨hf, (main_serveCalls w fl).1 hf, ?_, ?_⟩
  · intro hc
    rw [main_listenCalls, if_pos hc]
  · intro hc hl
    exact ⟨(main_fatal_sites w fl).2.2.2.2.2.2 ⟨hc, hl, hb, hr⟩,
      main_no_backend_trace w fl hb hr hc hl⟩

/-- The amended C2 with every call succeeding and no backend configured. -/
theorem main_no_backend_witness :
    (main okWorld noBackendFlags).exit.isFatal = true ∧
    serveCalls (main okWorld noBackendFlags).trace = [] :=
  ⟨(main_no_backend okWorld noBackendFlags rfl rfl).1,
   (main_no_backend okWorld noBackendFlags rfl rfl).2.1⟩

/-- C2 as stated fails: with both backend addresses empty and every call
succeeding, `net.Listen("tcp", "localhost:1991")` is called (and succeeds)
before the fatal exit of line 100. -/
theorem main_no_backend_counterexample :
    noBackendFlags.besBackend = "" ∧ noBackendFlags.remoteCache = "" ∧
    Event.listen "tcp" "localhost:1991" true ∈ (main okWorld noBackendFlags).trace ∧
    listenCalls (main okWorld noBackendFlags).trace = [("tcp", "localhost:1991")] ∧
    (main okWorld noBackendFlags).exit = Exit.fatal Fatal.noServices := by
  decide

/-- C3, as amended: `main` has six fatal exits (configurator, listen,
build-event protocol server, cache dial, cache proxy, no backend).  It does
not exit fatally, and calls `Serve` once on the listener it bound, exactly
when at least one backend address is non-empty, `config.NewConfigurator` and
`net.Listen` succeed, `NewBuildEventProtocolServer` succeeds if `bes_backend`
is set, and `DialTarget` and `NewCacheProxy` succeed if `remote_cache`
is set. -/
theorem main_reaches_serve (w : World) (fl : Flags) :
    StartupOk w fl ↔
      ((main w fl).exit.isFatal = false ∧
       (main w fl).exit = Exit.served (listenerOf fl) ∧
       serveCalls (main w fl).trace = [listenerOf fl]) := by
  constructor
  · intro h
    have he := (main_exit w fl).1 h
    exact ⟨by rw [he]; rfl, he, (main_serveCalls w fl).2 _ he⟩
  · rintro ⟨hf, -, -⟩
    by_contra hn
    rw [(main_exit w fl).2 hn] at hf
    exact Bool.noConfusion hf

/-- The amended C3 with every call succeeding and the default flags. -/
theorem main_reaches_serve_witness :
    (main okWorld defaultFlags).exit =
      Exit.served { network := "tcp", address := "localhost:1991" } ∧
    serveCalls (main okWorld defaultFlags).trace =
      [{ network := "tcp", address := "localhost:1991" }] :=
  ((main_reaches_serve okWorld defaultFlags).1 (by unfold StartupOk; decide)).2

/-- C3 as stated fails: both backends configured, the listener bound and the
cache dialed successfully, yet `main` exits fatally (line 89) because
`cache_proxy.NewCacheProxy` failed; `Serve` is never called. -/
theorem main_reaches_serve_counterexample :
    (defaultFlags.besBackend ≠ "" ∨ defaultFlags.remoteCache ≠ "") ∧
    Event.listen "tcp" "localhost:1991" true ∈ (main noCacheProxyWorld defaultFlags).trace ∧
    Event.dialTarget defaultFlags.remoteCache true ∈
      (main noCacheProxyWorld defaultFlags).trace ∧
    (main noCacheProxyWorld defaultFlags).exit = Exit.fatal Fatal.cacheProxy ∧
    serveCalls (main noCacheProxyWorld defaultFlags).trace = [] := by
  decide

/-- C4: if a bind fails in a run of `main` (a failed `net.Listen` is in the
trace), the run is exactly the start-up calls, that one `net.Listen`, and the
fatal exit of line 56: the bind is attempted once, no gRPC server is created,
no build-event client is constructed, nothing is dialed, no cache proxy is
built, nothing is registered and `Serve` is never called. -/
theorem main_listen_failure (w : World) (fl : Flags) (n a : String)
    (h : Event.listen n a false ∈ (main w fl).trace) :
    (main w fl).exit = Exit.fatal Fatal.listen ∧
    (main w fl).trace =
      [Event.newConfigurator true, Event.newHealthChecker fl.serverType,
       Event.newRealEnv, Event.setAuthenticator, Event.setBuildEventHandler,
       Event.listen n a false, Event.fatal Fatal.listen] ∧
    listenCalls (main w fl).trace = [(n, a)] ∧
    (n, a) = listenArgs fl.listenAddr ∧
    serverCreated (main w fl).trace = false ∧
    besClientCalls (main w fl).trace = [] ∧
    dialCalls (main w fl).trace = [] ∧
    cacheProxyCalls (main w fl).trace = [] ∧
    registrations (main w fl).trace = [] ∧
    serveCalls (main w fl).trace = [] := by
  obtain ⟨ht, he⟩ := main_listen_failed_trace w fl n a h
  have hl := main_listenCalls w fl
  rw [ht] at hl ⊢
  refine ⟨he, rfl, ?_, ?_, ?_, ?_, ?_, ?_, ?_, ?_⟩
  · simp [listenCalls, Event.asListen]
  · by_cases hc : w.newConfigurator = true
    · rw [if_pos hc] at hl
      simpa [listenCalls, Event.asListen] using hl
    · rw [if_neg hc] at hl
      simp [listenCalls, Event.asListen] at hl
  · simp [serverCreated]
  · simp [besClientCalls, Event.asBesClient]
  · simp [dialCalls, Event.asDial]
  · simp [cacheProxyCalls, Event.asCacheProxy]
  · simp [registrations, Event.asRegister]
  · simp [serveCalls, Event.asServe]

/-- C4 where every `net.Listen` fails, default flags. -/
theorem main_listen_failure_witness :
    Event.listen "tcp" "localhost:1991" false ∈ (main noListenWorld defaultFlags).trace ∧
    (main noListenWorld defaultFlags).exit = Exit.fatal Fatal.listen ∧
    dialCalls (main noListenWorld defaultFlags).trace = [] :=
  ⟨by decide,
   (main_listen_failure noListenWorld defaultFlags "tcp" "localhost:1991" (by decide)).1,
   (main_listen_failure noListenWorld defaultFlags "tcp" "localhost:1991"
     (by decide)).2.2.2.2.2.2.1⟩

/-- C5, as amended: for the cache role, if `remote_cache` is non-empty and
`grpc_client.DialTarget(remote_cache)` fails, `main` exits fatally and `Serve`
is never called, whatever `bes_backend` is and whatever the other calls
answer; a failed dial in the run is a dial of `remote_cache` followed by the
fatal exit of line 85.  (For the build-event role `main` makes no dial of its
own and has no fatal exit for an unreachable `bes_backend`.) -/
theorem main_cache_dial_failure (w : World) (fl : Flags)
    (hr : fl.remoteCache ≠ "") (hd : w.dialTarget fl.remoteCache = false) :
    (main w fl).exit.isFatal = true ∧
    serveCalls (main w fl).trace = [] ∧
    (∀ target, Event.dialTarget target false ∈ (main w fl).trace →
      target = fl.remoteCache ∧ (main w fl).exit = Exit.fatal Fatal.dialRemoteCache) ∧
    (w.newConfigurator = true →
      w.listen (listenArgs fl.listenAddr).1 (listenArgs fl.listenAddr).2 = true →
      (fl.besBackend ≠ "" →
        w.newBuildEventProtocolServer [NewBuildEventProxyClient w fl.besBackend] = true) →
      (main w fl).exit = Exit.fatal Fatal.dialRemoteCache) := by
  have hf : (main w fl).exit.isFatal = true :=
    (main_exit w fl).2 (fun h => by
      have h2 := (h.2.2.2.2 hr).1
      rw [hd] at h2
      exact Bool.noConfusion h2)
  refine ⟨hf, (main_serveCalls w fl).1 hf, ?_, ?_⟩
  · intro target
    by_cases hc : w.newConfigurator = true <;>
    by_cases hl : w.listen (listenArgs fl.listenAddr).1 (listenArgs fl.listenAddr).2 = true <;>
    by_cases hb : fl.besBackend = "" <;>
    by_cases hs : w.newBuildEventProtocolServer [NewBuildEventProxyClient w fl.besBackend] = true <;>
    simp [main, besBlock, cacheBlock, fatalExit, hc, hl, hb, hr, hs, hd]
  · intro hc hl hs
    exact (main_fatal_sites w fl).2.2.2.1.2 ⟨hc, hl, hs, hr, hd⟩

/-- The amended C5 where every `DialTarget` fails, with and without a
build-event backend. -/
theorem main_cache_dial_failure_witness :
    (main noDialWorld defaultFlags).exit.isFatal = true ∧
    serveCalls (main noDialWorld defaultFlags).trace = [] ∧
    (main noDialWorld cacheOnlyFlags).exit = Exit.fatal Fatal.dialRemoteCache :=
  ⟨(main_cache_dial_failure noDialWorld defaultFlags (by decide) rfl).1,
   (main_cache_dial_failure noDialWorld defaultFlags (by decide) rfl).2.1,
   (main_cache_dial_failure noDialWorld cacheOnlyFlags (by decide) rfl).2.2.2 rfl rfl
     (fun h => absurd rfl h)⟩

/-- C5 as stated fails for the build-event role: `bes_backend` is configured
and the client built for it has no connection to its target, yet `main` installs
that client, does not exit fatally and calls `Serve`. -/
theorem main_cache_dial_failure_counterexample :
    besOnlyFlags.besBackend ≠ "" ∧
    (NewBuildEventProxyClient besUnreachableWorld besOnlyFlags.besBackend).connected = false ∧
    installedClients (main besUnreachableWorld besOnlyFlags).trace =
      [[{ target := besOnlyFlags.besBackend, connected := false }]] ∧
    (main besUnreachableWorld besOnlyFlags).exit.isFatal = false ∧
    serveCalls (main besUnreachableWorld besOnlyFlags).trace =
      [{ network := "tcp", address := "localhost:1991" }] := by
  decide

/-- C6: in every run of `main` that reaches `Serve`, the proxy services
registered are `PublishBuildEvent` if and only if `bes_backend` is non-empty,
and `ByteStream`, `ActionCache`, `ContentAddressableStorage` and
`Capabilities` if and only if `remote_cache` is non-empty, each of these four
with the one cache proxy built on the connection to `remote_cache`. -/
theorem main_registered_services (w : World) (fl : Flags) (lis : Listener)
    (h : (main w fl).exit = Exit.served lis) :
    (proxyRegistrations (main w fl).trace =
      (if fl.besBackend ≠ "" then
        [(Service.PublishBuildEvent,
          Handler.buildEventServer [NewBuildEventProxyClient w fl.besBackend])]
       else []) ++
      (if fl.remoteCache ≠ "" then
        [(Service.ByteStream, Handler.cacheProxy { conn := { target := fl.remoteCache } }),
         (Service.ActionCache, Handler.cacheProxy { conn := { target := fl.remoteCache } }),
         (Service.ContentAddressableStorage,
           Handler.cacheProxy { conn := { target := fl.remoteCache } }),
         (Service.Capabilities, Handler.cacheProxy { conn := { target := fl.remoteCache } })]
       else [])) ∧
    ((∃ hd, (Service.PublishBuildEvent, hd) ∈ registrations (main w fl).trace) ↔
      fl.besBackend ≠ "") ∧
    (∀ s, s ∈ [Service.ByteStream, Service.ActionCache, Service.ContentAddressableStorage,
        Service.Capabilities] →
      ((∃ hd, (s, hd) ∈ registrations (main w fl).trace) ↔ fl.remoteCache ≠ "")) ∧
    (∀ s hd, s ∈ [Service.ByteStream, Service.ActionCache, Service.ContentAddressableStorage,
        Service.Capabilities] →
      (s, hd) ∈ registrations (main w fl).trace →
      hd = Handler.cacheProxy { conn := { target := fl.remoteCache } }) := by
  have hreg := main_registrations w fl lis h
  unfold proxyRegistrations
  rw [hreg]
  by_cases hb : fl.besBackend = "" <;> by_cases hr : fl.remoteCache = "" <;>
  simp [hb, hr, Service.isProxy] <;>
  (intro s hd hs; rcases hs with rfl | rfl | rfl | rfl <;> simp)

/-- C6 with only the cache backend configured. -/
theorem main_registered_services_witness :
    proxyRegistrations (main okWorld cacheOnlyFlags).trace =
      [(Service.ByteStream,
          Handler.cacheProxy { conn := { target := "grpcs://cloud.buildbuddy.io:443" } }),
       (Service.ActionCache,
          Handler.cacheProxy { conn := { target := "grpcs://cloud.buildbuddy.io:443" } }),
       (Service.ContentAddressableStorage,
          Handler.cacheProxy { conn := { target := "grpcs://cloud.buildbuddy.io:443" } }),
       (Service.Capabilities,
          Handler.cacheProxy { conn := { target := "grpcs://cloud.buildbuddy.io:443" } })] :=
  (main_registered_services okWorld cacheOnlyFlags
    { network := "tcp", address := "localhost:1991" } rfl).1

/-- C7, as amended: in every run of `main`, `grpc_client.DialTarget` is
called at most once, only with `remote_cache`, and never when `remote_cache`
is empty; it is called exactly once when `remote_cache` is non-empty,
`config.NewConfigurator` and `net.Listen` succeed and the build-event block
does not end the run (`bes_backend` empty or `NewBuildEventProtocolServer`
succeeds), and if that dial succeeds its connection is the one handed to
`NewCacheProxy`.  One build-event proxy client is constructed, for
`bes_backend`, when it is non-empty and the listener is bound, and none when it
is empty. -/
theorem main_dials_once (w : World) (fl : Flags) :
    (fl.remoteCache = "" → dialCalls (main w fl).trace = []) ∧
    ((dialCalls (main w fl).trace).length ≤ 1 ∧
      ∀ target ∈ dialCalls (main w fl).trace, target = fl.remoteCache) ∧
    (fl.remoteCache ≠ "" → w.newConfigurator = true →
      w.listen (listenArgs fl.listenAddr).1 (listenArgs fl.listenAddr).2 = true →
      (fl.besBackend ≠ "" →
        w.newBuildEventProtocolServer [NewBuildEventProxyClient w fl.besBackend] = true) →
      dialCalls (main w fl).trace = [fl.remoteCache] ∧
      (w.dialTarget fl.remoteCache = true →
        cacheProxyCalls (main w fl).trace = [{ target := fl.remoteCache }])) ∧
    (∀ conn ∈ cacheProxyCalls (main w fl).trace,
      conn = { target := fl.remoteCache } ∧ dialCalls (main w fl).trace = [conn.target]) ∧
    (fl.besBackend = "" → besClientCalls (main w fl).trace = []) ∧
    (fl.besBackend ≠ "" → w.newConfigurator = true →
      w.listen (listenArgs fl.listenAddr).1 (listenArgs fl.listenAddr).2 = true →
      besClientCalls (main w fl).trace = [fl.besBackend]) := by
  rw [main_dialCalls, main_cacheProxyCalls, main_besClientCalls]
  refine ⟨?_, ⟨?_, ?_⟩, ?_, ?_, ?_, ?_⟩
  · intro hr
    simp [hr]
  · split_ifs <;> simp
  · intro target
    split_ifs <;> simp
  · intro hr hc hl hs
    have hcond : w.newConfigurator = true ∧
        w.listen (listenArgs fl.listenAddr).1 (listenArgs fl.listenAddr).2 = true ∧
        (fl.besBackend ≠ "" →
          w.newBuildEventProtocolServer [NewBuildEventProxyClient w fl.besBackend] = true) ∧
        fl.remoteCache ≠ "" := ⟨hc, hl, hs, hr⟩
    refine ⟨if_pos hcond, fun hd => if_pos ⟨hc, hl, hs, hr, hd⟩⟩
  · intro conn
    by_cases hc : w.newConfigurator = true <;>
    by_cases hl : w.listen (listenArgs fl.listenAddr).1 (listenArgs fl.listenAddr).2 = true <;>
    by_cases hb : fl.besBackend = "" <;>
    by_cases hr : fl.remoteCache = "" <;>
    by_cases hs : w.newBuildEventProtocolServer [NewBuildEventProxyClient w fl.besBackend] = true <;>
    by_cases hd : w.dialTarget fl.remoteCache = true <;>
    simp [hc, hl, hb, hr, hs, hd] <;> rintro rfl <;> exact ⟨rfl, rfl⟩
  · intro hb
    simp [hb]
  · intro hb hc hl
    simp [hb, hc, hl]

/-- The amended C7 with every call succeeding and the default flags: one dial,
of `remote_cache`, whose connection goes to the cache proxy, and one
build-event client, for `bes_backend`. -/
theorem main_dials_once_witness :
    dialCalls (main okWorld defaultFlags).trace = ["grpcs://cloud.buildbuddy.io:443"] ∧
    cacheProxyCalls (main okWorld defaultFlags).trace =
      [{ target := "grpcs://cloud.buildbuddy.io:443" }] ∧
    besClientCalls (main okWorld defaultFlags).trace = ["grpcs://cloud.buildbuddy.io:443"] :=
  ⟨((main_dials_once okWorld defaultFlags).2.2.1 (by decide) rfl rfl (fun _ => rfl)).1,
   ((main_dials_once okWorld defaultFlags).2.2.1 (by decide) rfl rfl (fun _ => rfl)).2 rfl,
   (main_dials_once okWorld defaultFlags).2.2.2.2.2 (by decide) rfl rfl⟩

/-- C7 as stated fails: `remote_cache` is non-empty and the listener binds, but
`NewBuildEventProtocolServer` fails, so `main` exits at line 77 and
`DialTarget` is never called. -/
theorem main_dials_once_counterexample :
    defaultFlags.remoteCache ≠ "" ∧
    Event.listen "tcp" "localhost:1991" true ∈ (main noBesServerWorld defaultFlags).trace ∧
    dialCalls (main noBesServerWorld defaultFlags).trace = [] ∧
    (main noBesServerWorld defaultFlags).exit = Exit.fatal Fatal.buildEventProtocolServer := by
  decide

/-- C10: every client list `main` installs with `SetBuildEventProxyClients`
has length 1, its only element being the client built from `bes_backend`, and
is installed only when `bes_backend` is non-empty; `main` installs at most one
list, none when `bes_backend` is empty, and exactly that one list when
`bes_backend` is non-empty and start-up got past the listener. -/
theorem main_installs_one_target (w : World) (fl : Flags) :
    (∀ cs ∈ installedClients (main w fl).trace,
      fl.besBackend ≠ "" ∧ cs.length = 1 ∧
      cs = [NewBuildEventProxyClient w fl.besBackend]) ∧
    (installedClients (main w fl).trace).length ≤ 1 ∧
    (fl.besBackend = "" → installedClients (main w fl).trace = []) ∧
    (fl.besBackend ≠ "" → w.newConfigurator = true →
      w.listen (listenArgs fl.listenAddr).1 (listenArgs fl.listenAddr).2 = true →
      installedClients (main w fl).trace = [[NewBuildEventProxyClient w fl.besBackend]]) ∧
    (NewBuildEventProxyClient w fl.besBackend).target = fl.besBackend := by
  rw [main_installedClients]
  refine ⟨?_, ?_, ?_, ?_, rfl⟩
  · intro cs
    split_ifs with h
    · simp only [List.mem_singleton]
      rintro rfl
      exact ⟨h.2.2, rfl, rfl⟩
    · simp
  · split_ifs <;> simp
  · intro hb
    simp [hb]
  · intro hb hc hl
    simp [hb, hc, hl]

/-- C10 with every call succeeding and the default flags. -/
theorem main_installs_one_target_witness :
    installedClients (main okWorld defaultFlags).trace =
      [[{ target := "grpcs://cloud.buildbuddy.io:443", connected := true }]] :=
  (main_installs_one_target okWorld defaultFlags).2.2.2.1 (by decide) rfl rfl

end Sidecar

/-! # Theorems about the byte-stream relay -/

namespace ByteStream

theorem Session.run_succ {μ : Type} (maxSize : Nat) (size : μ → Nat) (n : Nat) (s : Session μ) :
    Session.run maxSize size (n + 1) s = Session.run maxSize size n (s.step maxSize size) := rfl

theorem Session.run_relaying {μ : Type} (maxSize : Nat) (size : μ → Nat) (p d : List μ)
    (hsize : ∀ m ∈ p, size m ≤ maxSize) :
    Session.run maxSize size (2 * p.length + 2)
        { phase := Phase.RELAYING, pending := p, sourceErrs := false, sinkRoom := none,
          inFlight := none, delivered := d, failure := none } =
      { phase := Phase.DONE, pending := [], sourceErrs := false, sinkRoom := none,
        inFlight := none, delivered := d ++ p, failure := none } := by
  induction p generalizing d with
  | nil => rw [List.append_nil]; rfl
  | cons m rest ih =>
    have hm : size m ≤ maxSize := hsize m (List.mem_cons_self _ _)
    have hlen : 2 * (m :: rest).length + 2 = (2 * rest.length + 2) + 1 + 1 := by
      simp only [List.length_cons]; ring
    have h1 : Session.step maxSize size
        { phase := Phase.RELAYING, pending := m :: rest, sourceErrs := false, sinkRoom := none,
          inFlight := none, delivered := d, failure := none } =
        { phase := Phase.RELAYING, pending := rest, sourceErrs := false, sinkRoom := none,
          inFlight := some m, delivered := d, failure := none } := by
      simp [Session.step, hm]
    have h2 : Session.step maxSize size
        { phase := Phase.RELAYING, pending := rest, sourceErrs := false, sinkRoom := none,
          inFlight := some m, delivered := d, failure := none } =
        { phase := Phase.RELAYING, pending := rest, sourceErrs := false, sinkRoom := none,
          inFlight := none, delivered := d ++ [m], failure := none } := rfl
    rw [hlen, Session.run_succ, Session.run_succ, h1, h2,
      ih (d ++ [m]) (fun x hx => hsize x (List.mem_cons_of_mem _ hx))]
    simp

theorem relay_clean {μ : Type} (maxSize : Nat) (size : μ → Nat) (msgs : List μ)
    (hsize : ∀ m ∈ msgs, size m ≤ maxSize) :
    relay maxSize size msgs false none =
      { phase := Phase.DONE, pending := [], sourceErrs := false, sinkRoom := none,
        inFlight := none, delivered := msgs, failure := none } := by
  have hlen : 2 * msgs.length + 3 = (2 * msgs.length + 2) + 1 := by ring
  have h1 : (Session.start msgs false none).step maxSize size =
      { phase := Phase.RELAYING, pending := msgs, sourceErrs := false, sinkRoom := none,
        inFlight := none, delivered := [], failure := none } := rfl
  simp only [relay]
  rw [hlen, Session.run_succ, h1, Session.run_relaying maxSize size msgs [] hsize]
  simp

theorem Session.step_inv {μ : Type} (maxSize : Nat) (size : μ → Nat) (msgs : List μ)
    (s : Session μ) (h : Session.Inv maxSize size msgs s) :
    Session.Inv maxSize size msgs (s.step maxSize size) := by
  obtain ⟨hp, hs, hr⟩ := h
  unfold Session.step
  split
  · exact ⟨hp, hs, fun _ => hr (by simp [*])⟩
  · have hr2 := hr (by simp [*])
    split
    · rename_i m hm
      have hmsg : msgs = s.delivered ++ [m] ++ s.pending := by
        have := hr2.1; rw [hm] at this; simpa using this
      have hmsz : size m ≤ maxSize := hr2.2 m (by simp [hm])
      split
      · exact ⟨hp, hs, fun h => absurd rfl h⟩
      · refine ⟨⟨s.pending, by simp [hmsg]⟩, ?_, fun _ => ⟨by simp [hmsg], by simp⟩⟩
        intro x hx
        rcases List.mem_append.mp hx with hx | hx
        · exact hs x hx
        · rw [List.mem_singleton.mp hx]; exact hmsz
      · refine ⟨⟨s.pending, by simp [hmsg]⟩, ?_, fun _ => ⟨by simp [hmsg], by simp⟩⟩
        intro x hx
        rcases List.mem_append.mp hx with hx | hx
        · exact hs x hx
        · rw [List.mem_singleton.mp hx]; exact hmsz
    · rename_i hm
      split
      · rename_i m rest hpend
        split
        · rename_i hsz
          refine ⟨hp, hs, fun _ => ⟨?_, ?_⟩⟩
          · have := hr2.1; rw [hm, hpend] at this; simpa using this
          · intro x hx
            simp only [Option.toList, List.mem_singleton] at hx
            rw [hx]; exact hsz
        · exact ⟨hp, hs, fun h => absurd rfl h⟩
      · split
        · exact ⟨hp, hs, fun h => absurd rfl h⟩
        · exact ⟨hp, hs, fun _ => hr2⟩
  · have hr2 := hr (by simp [*])
    split
    · exact ⟨hp, hs, fun h => absurd rfl h⟩
    · exact ⟨hp, hs, fun _ => hr2⟩
  · exact ⟨hp, hs, hr⟩
  · exact ⟨hp, hs, hr⟩

theorem Session.run_inv {μ : Type} (maxSize : Nat) (size : μ → Nat) (msgs : List μ) (n : Nat)
    (s : Session μ) (h : Session.Inv maxSize size msgs s) :
    Session.Inv maxSize size msgs (Session.run maxSize size n s) := by
  induction n generalizing s with
  | zero => exact h
  | succ n ih => exact ih _ (Session.step_inv maxSize size msgs s h)

theorem relay_delivered {μ : Type} (maxSize : Nat) (size : μ → Nat) (msgs : List μ)
    (sourceErrs : Bool) (sinkRoom : Option Nat) :
    (relay maxSize size msgs sourceErrs sinkRoom).delivered <+: msgs ∧
    ∀ m ∈ (relay maxSize size msgs sourceErrs sinkRoom).delivered, size m ≤ maxSize := by
  have h := Session.run_inv maxSize size msgs (2 * msgs.length + 3)
    (Session.start msgs sourceErrs sinkRoom)
    ⟨by simp [Session.start], by simp [Session.start], fun _ => by simp [Session.start]⟩
  exact ⟨h.1, h.2.1⟩

theorem Session.run_ended {μ : Type} (maxSize : Nat) (size : μ → Nat) (n : Nat)
    (s : Session μ) (h : s.Ended) : Session.run maxSize size n s = s := by
  induction n with
  | zero => rfl
  | succ n ih =>
    have hs : s.step maxSize size = s := by
      rcases h with ⟨h, -⟩ | ⟨h, -⟩ <;> simp [Session.step, h]
    rw [Session.run_succ, hs, ih]

theorem Session.run_relaying_ended {μ : Type} (maxSize : Nat) (size : μ → Nat) (p d : List μ)
    (errs : Bool) (room : Option Nat) :
    (Session.run maxSize size (2 * p.length + 2)
        { phase := Phase.RELAYING, pending := p, sourceErrs := errs, sinkRoom := room,
          inFlight := none, delivered := d, failure := none }).Ended := by
  induction p generalizing d room with
  | nil =>
    cases errs <;> rcases room with _ | _ | k <;>
      simp [Session.run, Session.step, Session.Ended]
  | cons m rest ih =>
    have hlen : 2 * (m :: rest).length + 2 = (2 * rest.length + 2) + 1 + 1 := by
      simp only [List.length_cons]; ring
    rw [hlen, Session.run_succ, Session.run_succ]
    by_cases hm : size m ≤ maxSize
    · rcases room with _ | _ | k
      · simpa [Session.step, hm] using ih (d ++ [m]) none
      · have he : Session.Ended
            ({ phase := Phase.FAILED, pending := rest, sourceErrs := errs, sinkRoom := some 0,
               inFlight := none, delivered := d,
               failure := some Failure.receivingLeg } : Session μ) :=
          Or.inr ⟨rfl, by simp⟩
        simpa [Session.step, hm, Session.run_ended maxSize size _ _ he] using he
      · simpa [Session.step, hm] using ih (d ++ [m]) (some k)
    · have he : Session.Ended
          ({ phase := Phase.FAILED, pending := m :: rest, sourceErrs := errs, sinkRoom := room,
             inFlight := none, delivered := d,
             failure := some Failure.sizeLimit } : Session μ) :=
        Or.inr ⟨rfl, by simp⟩
      simpa [Session.step, hm, Session.run_ended maxSize size _ _ he] using he

/-- Every relayed stream ends, within the moves `relay` allows, in `DONE` or in
`FAILED`. -/
theorem relay_ended {μ : Type} (maxSize : Nat) (size : μ → Nat) (msgs : List μ)
    (sourceErrs : Bool) (sinkRoom : Option Nat) :
    (relay maxSize size msgs sourceErrs sinkRoom).Ended := by
  have hlen : 2 * msgs.length + 3 = (2 * msgs.length + 2) + 1 := by ring
  have h1 : (Session.start msgs sourceErrs sinkRoom).step maxSize size =
      { phase := Phase.RELAYING, pending := msgs, sourceErrs := sourceErrs,
        sinkRoom := sinkRoom, inFlight := none, delivered := [], failure := none } := rfl
  simp only [relay]
  rw [hlen, Session.run_succ, h1]
  exact Session.run_relaying_ended maxSize size msgs [] sourceErrs sinkRoom

theorem splitEvery_flatten {α : Type} (size : Nat) (fuel : Nat) (l : List α)
    (h : l.length ≤ fuel) : (splitEvery size fuel l).flatten = l := by
  induction fuel generalizing l with
  | zero =>
    have : l = [] := List.length_eq_zero.mp (Nat.le_zero.mp h)
    subst this
    simp [splitEvery]
  | succ fuel ih =>
    cases l with
    | nil => simp [splitEvery]
    | cons a l =>
      simp only [splitEvery, List.flatten_cons]
      rw [ih]
      · exact List.take_append_drop _ _
      · simp only [List.length_drop, List.length_cons] at h ⊢
        omega

/-- The in-memory backend without a quota serves, without error, the bytes of
the write stream it was sent. -/
theorem memoryBackend_stores (chunk : Nat) (st : String → Option (List Byte))
    (r : WriteRequest) (reqs : List WriteRequest) :
    ((memoryBackend none chunk).read ((memoryBackend none chunk).write st (r :: reqs)).1
      r.resourceName).1.flatten = payload (r :: reqs) ∧
    ((memoryBackend none chunk).read ((memoryBackend none chunk).write st (r :: reqs)).1
      r.resourceName).2 = false := by
  simp [memoryBackend, splitEvery_flatten]

/-- C8, as amended: for every byte sequence `B` and every stream of write
requests that carries `B` in chunks none of which is over the configured
maximum message size, when no leg errors and the backend, sent that stream,
serves its bytes for the resource without error and in chunks within the
maximum size: the write through the relay hands the backend exactly the
client's requests and returns the backend's answer, the read through the relay
hands the client exactly the chunks the backend serves, and the bytes read
back are exactly `B`, whatever the chunk boundaries. -/
theorem bytestream_roundtrip {σ : Type} (maxSize : Nat) (bk : Backend σ) (st : σ)
    (name : String) (B : List Byte) (reqs : List WriteRequest)
    (hsplit : payload reqs = B)
    (hsize : ∀ r ∈ reqs, r.size ≤ maxSize)
    (hserved : ∀ c ∈ (bk.read (bk.write st reqs).1 name).1, c.length ≤ maxSize)
    (hreadok : (bk.read (bk.write st reqs).1 name).2 = false)
    (hstore : (bk.read (bk.write st reqs).1 name).1.flatten = payload reqs) :
    sidecarWrite maxSize bk st reqs false none =
      ((bk.write st reqs).1, Outcome.ok (bk.write st reqs).2) ∧
    sidecarRead maxSize bk (sidecarWrite maxSize bk st reqs false none).1 name none =
      ((bk.read (bk.write st reqs).1 name).1, Outcome.ok ()) ∧
    (sidecarRead maxSize bk (sidecarWrite maxSize bk st reqs false none).1 name none).1.flatten
      = B := by
  have hw : sidecarWrite maxSize bk st reqs false none =
      ((bk.write st reqs).1, Outcome.ok (bk.write st reqs).2) := by
    simp [sidecarWrite, relay_clean maxSize WriteRequest.size reqs hsize]
  have hr : sidecarRead maxSize bk (bk.write st reqs).1 name none =
      ((bk.read (bk.write st reqs).1 name).1, Outcome.ok ()) := by
    simp [sidecarRead, hreadok, relay_clean maxSize List.length _ hserved]
  rw [hw]
  refine ⟨rfl, hr, ?_⟩
  rw [hr, hstore, hsplit]

/-- The amended C8 for the bytes `1, 2, 3` with a maximum message size of 2,
against the in-memory backend: written as `[1, 2], [], [3]` and served in
chunks of two, and written as `[1], [2, 3]` and served in chunks of one. -/
theorem bytestream_roundtrip_witness :
    (sidecarRead 2 (memoryBackend none 1)
      (sidecarWrite 2 (memoryBackend none 1) emptyStore
        (writeRequests "blob" 0 [[1, 2], [], [3]]) false none).1 "blob" none).1.flatten =
      [1, 2, 3] ∧
    (sidecarRead 2 (memoryBackend none 0)
      (sidecarWrite 2 (memoryBackend none 0) emptyStore
        (writeRequests "blob" 0 [[1], [2, 3]]) false none).1 "blob" none).1.flatten =
      [1, 2, 3] :=
  ⟨(bytestream_roundtrip 2 (memoryBackend none 1) emptyStore "blob" [1, 2, 3]
      (writeRequests "blob" 0 [[1, 2], [], [3]]) (by decide) (by decide) (by decide)
      (by decide) (by decide)).2.2,
   (bytestream_roundtrip 2 (memoryBackend none 0) emptyStore "blob" [1, 2, 3]
      (writeRequests "blob" 0 [[1], [2, 3]]) (by decide) (by decide) (by decide)
      (by decide) (by decide)).2.2⟩

/-- C8 as stated fails.  With a maximum message size of 2 and the in-memory
backend, the bytes `1, 2, 3` written as the single chunk `[1, 2, 3]` are
rejected (size limit), nothing reaches the backend and the read back yields
nothing, while the same bytes written as `[1, 2], [3]` are read back in full:
the result depends on the chunk boundaries.  The same bytes written as
`[1], [2], [3]` with the backend leg erroring on its second write do not
come back either; against a backend that commits only two bytes (a short
write, which the relay reports unchanged) the read back yields `1, 2`; and
against a backend that serves the three bytes as one chunk the read is
rejected (size limit). -/
theorem bytestream_roundtrip_counterexample :
    payload (writeRequests "blob" 0 [[1, 2, 3]]) = [1, 2, 3] ∧
    (sidecarWrite 2 (memoryBackend none 1) emptyStore
      (writeRequests "blob" 0 [[1, 2, 3]]) false none).2 = Outcome.failed Failure.sizeLimit ∧
    (relay 2 WriteRequest.size (writeRequests "blob" 0 [[1, 2, 3]]) false none).delivered = [] ∧
    sidecarRead 2 (memoryBackend none 1)
      (sidecarWrite 2 (memoryBackend none 1) emptyStore
        (writeRequests "blob" 0 [[1, 2, 3]]) false none).1 "blob" none =
      ([], Outcome.failed Failure.sendingLeg) ∧
    payload (writeRequests "blob" 0 [[1, 2], [3]]) = [1, 2, 3] ∧
    (sidecarRead 2 (memoryBackend none 1)
      (sidecarWrite 2 (memoryBackend none 1) emptyStore
        (writeRequests "blob" 0 [[1, 2], [3]]) false none).1 "blob" none).1.flatten =
      [1, 2, 3] ∧
    (sidecarWrite 2 (memoryBackend none 1) emptyStore
      (writeRequests "blob" 0 [[1], [2], [3]]) false (some 1)).2 =
      Outcome.failed Failure.receivingLeg ∧
    (sidecarRead 2 (memoryBackend none 1)
      (sidecarWrite 2 (memoryBackend none 1) emptyStore
        (writeRequests "blob" 0 [[1], [2], [3]]) false (some 1)).1 "blob" none).1 = [] ∧
    (sidecarWrite 2 (memoryBackend (some 2) 1) emptyStore
      (writeRequests "blob" 0 [[1, 2], [3]]) false none).2 = Outcome.ok 2 ∧
    (sidecarRead 2 (memoryBackend (some 2) 1)
      (sidecarWrite 2 (memoryBackend (some 2) 1) emptyStore
        (writeRequests "blob" 0 [[1, 2], [3]]) false none).1 "blob" none).1.flatten =
      [1, 2] ∧
    sidecarRead 2 (memoryBackend none 2)
      (sidecarWrite 2 (memoryBackend none 2) emptyStore
        (writeRequests "blob" 0 [[1, 2], [3]]) false none).1 "blob" none =
      ([], Outcome.failed Failure.sizeLimit) := by
  decide

end ByteStream
